import Mathlib

/-!
Verification of the NanoCron scheduling core against its specification.

The definitions below are a shallow embedding of the C++ sources:
`src/components/CronTypes.h`, `src/components/CronEngine.cpp`,
`src/components/JobConfig.cpp`, `src/components/JobExecutor.cpp`,
`src/components/ConfigWatcher.cpp` and the scheduler loop of
`src/nanoCron.cpp`.  C++ `int` values are modelled as `Int` (the claims
never exercise 32-bit overflow except through `std::stoi`'s own range
check, which is modelled explicitly); `float` metric readings are
modelled as `Rat`; I/O collaborators (the `system(3)` call, the metric
readers under `/proc`) are passed in as explicit function parameters.
-/

namespace NanoCron

/-- Execution frequencies, from `CronTypes.h` (`enum class CronFrequency`). -/
inductive CronFrequency
  | daily
  | weekly
  | monthly
  | yearly
  | weekday
  | weekend
deriving DecidableEq, Repr

/-- Raw schedule fields, from `CronTypes.h` (`struct CronSchedule`). -/
structure CronSchedule where
  minute : String
  hour : String
  day_of_month : String
  month : String
  day_of_week : String
deriving DecidableEq, Repr

/-- Per-job resource gates, from `CronTypes.h` (`struct JobConditions`).
The C++ `std::map<std::string,std::string>` of disk thresholds is
modelled as an association list. -/
structure JobConditions where
  cpu_threshold : String
  ram_threshold : String
  loadavg_threshold : String
  disk_thresholds : List (String × String)
deriving DecidableEq, Repr

/-- A job, from `CronTypes.h` (`struct CronJob`): raw schedule plus the
derived legacy fields used by the engine. -/
structure CronJob where
  description : String
  schedule : CronSchedule
  command : String
  conditions : JobConditions
  hour : Int
  minute : Int
  frequency : CronFrequency
  day_param : Int
  month_param : Int
deriving DecidableEq, Repr

/-- Broken-down calendar time, the fields of `std::tm` read by the engine
(`tm_mon` is 0-based, so the calendar month is `tm_mon + 1`). -/
structure Tm where
  tm_min : Int
  tm_hour : Int
  tm_mday : Int
  tm_mon : Int
  tm_wday : Int
deriving DecidableEq, Repr

/-- The last-execution ledger: `std::map<std::string, std::pair<int,int>>`
from job command to the (hour, minute) of the last firing, modelled as an
association list. -/
abbrev Ledger := List (String × (Int × Int))

/-- `map::find` on the ledger. -/
def ledgerFind (l : Ledger) (k : String) : Option (Int × Int) :=
  match l with
  | [] => none
  | (k', v) :: rest => if k' = k then some v else ledgerFind rest k

/-- `map::operator[]` assignment on the ledger (insert or overwrite). -/
def ledgerInsert (l : Ledger) (k : String) (v : Int × Int) : Ledger :=
  match l with
  | [] => [(k, v)]
  | (k', v') :: rest =>
    if k' = k then (k, v) :: rest else (k', v') :: ledgerInsert rest k v

/-- Minute match of `CronEngine::shouldRunJob` (`CronEngine.cpp` lines
10-12): wildcard `-1`, interval marker `-2`, or equality with the
current minute. -/
def minuteMatch (job : CronJob) (t : Tm) : Bool :=
  (job.minute == -1) || (job.minute == -2) || (job.minute == t.tm_min)

/-- Hour match of `CronEngine::shouldRunJob` (`CronEngine.cpp` lines
14-15): wildcard `-1` or equality with the current hour. -/
def hourMatch (job : CronJob) (t : Tm) : Bool :=
  (job.hour == -1) || (job.hour == t.tm_hour)

/-- Duplicate check of `CronEngine::shouldRunJob` (`CronEngine.cpp` lines
22-28): the ledger maps `job.command` to exactly the current
(hour, minute). -/
def alreadyRanThisMinute (job : CronJob) (t : Tm) (last_exec : Ledger) : Bool :=
  match ledgerFind last_exec job.command with
  | some p => (p.1 == t.tm_hour) && (p.2 == t.tm_min)
  | none => false

/-- Frequency-specific switch of `CronEngine::shouldRunJob`
(`CronEngine.cpp` lines 30-53). -/
def frequencyCheck (job : CronJob) (t : Tm) : Bool :=
  match job.frequency with
  | .daily => true
  | .weekly => t.tm_wday == job.day_param
  | .monthly => t.tm_mday == job.day_param
  | .yearly => (t.tm_mday == job.day_param) && ((t.tm_mon + 1) == job.month_param)
  | .weekday => decide (1 ≤ t.tm_wday) && decide (t.tm_wday ≤ 5)
  | .weekend => (t.tm_wday == 0) || (t.tm_wday == 6)

/-- `CronEngine::shouldRunJob` (`CronEngine.cpp` lines 5-54). -/
def shouldRunJob (job : CronJob) (t : Tm) (last_exec : Ledger) : Bool :=
  if !(minuteMatch job t && hourMatch job t) then false
  else if alreadyRanThisMinute job t last_exec then false
  else frequencyCheck job t

/-- Value of a digit run, most significant first. -/
def digitsToNat (ds : List Char) : Nat :=
  ds.foldl (fun a c => a * 10 + (c.toNat - 48)) 0

/-- `std::stoi` with base 10 on a 32-bit `int`: skip leading whitespace,
optional sign, then the longest digit run; `none` models the
`invalid_argument` exception (no digits) and the `out_of_range`
exception (value outside the `int` range). -/
def stoi? (s : String) : Option Int :=
  let cs := s.data.dropWhile Char.isWhitespace
  let signAndRest : Int × List Char :=
    match cs with
    | '+' :: r => (1, r)
    | '-' :: r => (-1, r)
    | r => (1, r)
  let ds := signAndRest.2.takeWhile Char.isDigit
  if ds.isEmpty then none
  else
    let v : Int := signAndRest.1 * (digitsToNat ds : Int)
    if v < -2147483648 ∨ 2147483647 < v then none else some v

/-- One numeric schedule field as converted by
`JobConfig::parseScheduleToLegacyFormat` (`JobConfig.cpp` lines
277-280): `"*"` becomes the wildcard `-1`, anything else goes through
`std::stoi` (whose exceptions are `none` here). -/
def parseField (s : String) : Option Int :=
  if s = "*" then some (-1) else stoi? s

/-- The legacy fields computed by `JobConfig::parseScheduleToLegacyFormat`. -/
structure LegacyFields where
  minute : Int
  hour : Int
  day_param : Int
  month_param : Int
  frequency : CronFrequency
deriving DecidableEq, Repr

/-- Frequency determination of `JobConfig::parseScheduleToLegacyFormat`
(`JobConfig.cpp` lines 282-295). -/
def deriveFrequency (sched : CronSchedule) : CronFrequency :=
  if sched.day_of_week = "1-5" then .weekday
  else if sched.day_of_week = "0,6" ∨ sched.day_of_week = "6,0" then .weekend
  else if ¬(sched.day_of_week = "*") then .weekly
  else if ¬(sched.day_of_month = "*") then .monthly
  else if ¬(sched.month = "*") then .yearly
  else .daily

/-- The defaults set by the `catch` block of
`JobConfig::parseScheduleToLegacyFormat` (`JobConfig.cpp` lines
297-305). -/
def legacyDefaults : LegacyFields :=
  { minute := -1, hour := -1, day_param := -1, month_param := -1,
    frequency := .daily }

/-- `JobConfig::parseScheduleToLegacyFormat` (`JobConfig.cpp` lines
275-306).  The C++ runs the four `std::stoi` conversions and then the
frequency determination inside one `try`; the first failing conversion
jumps to the `catch`, which sets every field to its default, so the
result only depends on whether all four conversions succeed. -/
def parseScheduleToLegacyFormat (sched : CronSchedule) : LegacyFields :=
  match parseField sched.minute, parseField sched.hour,
        parseField sched.day_of_month, parseField sched.month with
  | some m, some h, some d, some mo =>
    { minute := m, hour := h, day_param := d, month_param := mo,
      frequency := deriveFrequency sched }
  | _, _, _, _ => legacyDefaults

/-- Job construction in `JobConfig::parseJobsFromJson` for an entry in
the object schedule format (`JobConfig.cpp` lines 49-78): record the
raw fields and run `parseScheduleToLegacyFormat`. -/
def mkJob (desc cmd : String) (sched : CronSchedule) (conds : JobConditions) : CronJob :=
  let lf := parseScheduleToLegacyFormat sched
  { description := desc, schedule := sched, command := cmd,
    conditions := conds, hour := lf.hour, minute := lf.minute,
    frequency := lf.frequency, day_param := lf.day_param,
    month_param := lf.month_param }

/-- Value of a fractional digit run, as a rational. -/
def fracToRat (ds : List Char) : Rat :=
  (digitsToNat ds : Rat) / ((10 : Rat) ^ ds.length)

/-- `std::stof` on the threshold's numeric part, restricted to the plain
decimal numerals the configuration format uses (optional sign, digits,
optional fraction; exponents and the hex/inf/nan forms are not
modelled).  `float` values are modelled exactly as rationals: no claim
depends on rounding.  `none` models the `invalid_argument` exception. -/
def stof? (cs : List Char) : Option Rat :=
  let cs := cs.dropWhile Char.isWhitespace
  let signAndRest : Rat × List Char :=
    match cs with
    | '+' :: r => (1, r)
    | '-' :: r => (-1, r)
    | r => (1, r)
  let intPart := signAndRest.2.takeWhile Char.isDigit
  let afterInt := signAndRest.2.dropWhile Char.isDigit
  match afterInt with
  | '.' :: r2 =>
    let fracPart := r2.takeWhile Char.isDigit
    if intPart.isEmpty ∧ fracPart.isEmpty then none
    else some (signAndRest.1 * ((digitsToNat intPart : Rat) + fracToRat fracPart))
  | _ =>
    if intPart.isEmpty then none
    else some (signAndRest.1 * (digitsToNat intPart : Rat))

/-- `JobConfig::evaluateThreshold` (`JobConfig.cpp` lines 560-601): an
empty threshold passes; a threshold not starting with `<` or `>` passes
(invalid format is allowed through); a trailing `%` is stripped; an
unparseable number passes; otherwise compare the current reading with
the parsed value. -/
def evaluateThreshold (currentValue : Rat) (threshold : String) : Bool :=
  match threshold.data with
  | [] => true
  | op :: rest =>
    if ¬(op = '<' ∨ op = '>') then true
    else
      let value_chars := if rest.getLast? = some '%' then rest.dropLast else rest
      match stof? value_chars with
      | none => true
      | some tv =>
        if op = '<' then decide (currentValue < tv) else decide (tv < currentValue)

/-- Current system metric readings, the results of
`JobConfig::getCurrentCpuUsage` / `getCurrentRamUsage` /
`getCurrentLoadAverage` / `getCurrentDiskUsage`.  These read `/proc`
and `statvfs`, so they enter the model as an explicit parameter; the
negative error return of each reader is modelled as `none`. -/
structure Readings where
  cpu : Option Rat
  ram : Option Rat
  loadavg : Option Rat
  disk : String → Option Rat

/-- One metric check inside `JobConfig::checkJobConditions`: skipped if
no threshold is set, skipped with a warning if the reading failed,
otherwise the threshold must evaluate true. -/
def condCheck (reading : Option Rat) (threshold : String) : Bool :=
  if threshold = "" then true
  else
    match reading with
    | none => true
    | some v => evaluateThreshold v threshold

/-- `JobConfig::checkJobConditions` (`JobConfig.cpp` lines 340-400):
always pass when no condition is specified, otherwise every specified
condition whose reading is available must hold (the C++ early
`return false` on the first failing check equals this conjunction). -/
def checkJobConditions (r : Readings) (c : JobConditions) : Bool :=
  if c.cpu_threshold = "" ∧ c.ram_threshold = "" ∧ c.loadavg_threshold = ""
      ∧ c.disk_thresholds = ([] : List (String × String)) then true
  else
    condCheck r.cpu c.cpu_threshold &&
    condCheck r.ram c.ram_threshold &&
    condCheck r.loadavg c.loadavg_threshold &&
    c.disk_thresholds.all fun pt =>
      match r.disk pt.1 with
      | none => true
      | some v => evaluateThreshold v pt.2

/-- One JSON entry of the `jobs` array as consumed by
`JobConfig::parseJobsFromJson`, for entries carrying a schedule in the
object format (`JobConfig.cpp` lines 48-108).  The string-schedule and
legacy-fallback entry shapes are not modelled: no claim touches them.
`none` for `description` / `command` models a missing required key. -/
structure JobEntry where
  description : Option String
  command : Option String
  schedule : CronSchedule
  conditions : JobConditions

/-- `JobConfig::parseJobsFromJson` (`JobConfig.cpp` lines 39-116) over
object-format entries: skip entries missing a required field, build the
job (schedule derivation included), and push it only if
`checkJobConditions` holds for the current readings. -/
def parseJobsFromJson (r : Readings) (entries : List JobEntry) : List CronJob :=
  match entries with
  | [] => []
  | e :: rest =>
    match e.description, e.command with
    | some desc, some cmd =>
      if checkJobConditions r e.conditions then
        mkJob desc cmd e.schedule e.conditions :: parseJobsFromJson r rest
      else parseJobsFromJson r rest
    | _, _ => parseJobsFromJson r rest

/-- The job-dispatch portion of one tick of the main daemon loop
(`nanoCron.cpp` lines 243-258): for each job in order, if
`shouldRunJob` holds, execute it and overwrite its ledger entry with
the current (hour, minute).  Returns the final ledger and the list of
dispatched jobs. -/
def processTick (jobs : List CronJob) (t : Tm) (ledger : Ledger) :
    Ledger × List CronJob :=
  match jobs with
  | [] => (ledger, [])
  | j :: rest =>
    if shouldRunJob j t ledger then
      let res := processTick rest t (ledgerInsert ledger j.command (t.tm_hour, t.tm_min))
      (res.1, j :: res.2)
    else processTick rest t ledger

/-- Outcome classification of `JobExecutor::executeJob`. -/
inductive Outcome
  | success
  | timeout
  | failure (code : Int)
deriving DecidableEq, Repr

/-- Relative-path resolution of `JobExecutor::executeWithTimeout`
(`JobExecutor.cpp` lines 98-111): a command starting with `./`
(`command.find(".\x2f") == 0`) is rebuilt as `cwd + "/" + command.substr(2)`. -/
def resolveCommand (cwd : String) (command : String) : String :=
  match command.data with
  | '.' :: '/' :: rest => cwd ++ "/" ++ String.mk rest
  | _ => command

/-- The wrapped command string built by `JobExecutor::executeWithTimeout`
(`JobExecutor.cpp` line 120). -/
def timedCommand (timeout_seconds : Int) (full_command : String) : String :=
  "timeout " ++ toString timeout_seconds ++ " " ++ full_command

/-- `JobExecutor::executeWithTimeout` (`JobExecutor.cpp` lines 86-139).
`sys` is the `std::system` collaborator, mapping a command string to
its raw wait status.  The result records, in order, every command
string handed to `sys`, together with the returned status: on raw
status `127 * 256` the same resolved command is run a second time with
no timeout wrapper. -/
def executeWithTimeout (sys : String → Int) (cwd : String) (command : String)
    (timeout_seconds : Int) : List String × Int :=
  let full_command := resolveCommand cwd command
  let timed_command := timedCommand timeout_seconds full_command
  let result := sys timed_command
  if result == 127 * 256 then ([timed_command, full_command], sys full_command)
  else ([timed_command], result)

/-- Result classification of `JobExecutor::executeJob` (`JobExecutor.cpp`
lines 53-62): raw status 0 is success, raw status `124 * 256` is a
timeout, anything else is a failure with exit code `status / 256`. -/
def classifyResult (result : Int) : Outcome :=
  if result == 0 then .success
  else if result == 124 * 256 then .timeout
  else .failure (result / 256)

/-- `JobExecutor::executeJob` (`JobExecutor.cpp` lines 30-63): run the
job's command under the fixed 300-second timeout and classify the raw
status. -/
def executeJob (sys : String → Int) (cwd : String) (job : CronJob) : Outcome :=
  classifyResult (executeWithTimeout sys cwd job.command 300).2

/-- What one reload attempt of `ConfigWatcher::validateAndLoadConfig`
reads from the file system: the pre-validation of
`JobConfig::validateJobsFile` failed, or `loadJobsFromFile` returned
null, or a job list was produced. -/
inductive LoadOutcome
  | invalidFile
  | loadFailed
  | loaded (jobs : List CronJob)

/-- The state guarded by `ConfigWatcher::cacheMutex`: the currently
published job set. -/
structure WatcherState where
  currentJobs : List CronJob

/-- `ConfigWatcher::getJobs` (`ConfigWatcher.cpp` lines 104-107): the
snapshot read of the published job set. -/
def getJobs (st : WatcherState) : List CronJob :=
  st.currentJobs

/-- The semantic validation loop of `ConfigWatcher::validateAndLoadConfig`
(`ConfigWatcher.cpp` lines 259-268): some loaded job has an empty
command. -/
def hasEmptyCommand (jobs : List CronJob) : Bool :=
  jobs.any fun j => j.command == ""

/-- `ConfigWatcher::validateAndLoadConfig` (`ConfigWatcher.cpp` lines
241-283) as a state transition: on any validation or load failure the
published set is left untouched and `false` is returned; only a fully
validated replacement is swapped in. -/
def validateAndLoadConfig (st : WatcherState) (outcome : LoadOutcome) :
    WatcherState × Bool :=
  match outcome with
  | .invalidFile => (st, false)
  | .loadFailed => (st, false)
  | .loaded newJobs =>
    if hasEmptyCommand newJobs then (st, false)
    else ({ currentJobs := newJobs }, true)

/-! ## Helper lemmas about the schedule derivation -/

/-- When all four numeric fields convert, `parseScheduleToLegacyFormat`
records their values and the derived frequency. -/
theorem parseLegacy_success (sched : CronSchedule) (m h d mo : Int)
    (hm : parseField sched.minute = some m) (hh : parseField sched.hour = some h)
    (hd : parseField sched.day_of_month = some d) (hmo : parseField sched.month = some mo) :
    parseScheduleToLegacyFormat sched =
      { minute := m, hour := h, day_param := d, month_param := mo,
        frequency := deriveFrequency sched } := by
  unfold parseScheduleToLegacyFormat
  rw [hm, hh, hd, hmo]

/-- When any numeric field fails to convert, the `catch` defaults are
returned. -/
theorem parseLegacy_fail (sched : CronSchedule)
    (hbad : parseField sched.minute = none ∨ parseField sched.hour = none ∨
        parseField sched.day_of_month = none ∨ parseField sched.month = none) :
    parseScheduleToLegacyFormat sched = legacyDefaults := by
  unfold parseScheduleToLegacyFormat
  cases h1 : parseField sched.minute <;> cases h2 : parseField sched.hour <;>
    cases h3 : parseField sched.day_of_month <;> cases h4 : parseField sched.month <;>
    simp_all

/-- The derivation only assigns YEARLY when day-of-week and day-of-month
are wildcards and month is not. -/
theorem deriveFrequency_yearly (sched : CronSchedule)
    (h : deriveFrequency sched = .yearly) :
    sched.day_of_week = "*" ∧ sched.day_of_month = "*" ∧ ¬(sched.month = "*") := by
  unfold deriveFrequency at h
  split_ifs at h with h1 h2 h3 h4 h5
  all_goals simp_all

/-- `std::stoi` on an interval specifier `*/N` throws: the first
character is not a digit. -/
theorem stoi?_interval (n : String) : stoi? ("*/" ++ n) = none := by
  have hd : ("*/" ++ n).data = '*' :: '/' :: n.data := by
    rw [String.data_append]
    rfl
  unfold stoi?
  rw [hd]
  rfl

/-- An interval specifier is not the wildcard string. -/
theorem interval_ne_star (n : String) : ¬("*/" ++ n) = "*" := by
  intro h
  have hlen := congrArg String.length h
  rw [String.length_append] at hlen
  have h2 : ("*/" : String).length = 2 := rfl
  have h1 : ("*" : String).length = 1 := rfl
  rw [h2, h1] at hlen
  omega

/-- Converting an interval minute specifier fails (it is neither the
wildcard nor a parseable integer). -/
theorem parseField_interval (n : String) : parseField ("*/" ++ n) = none := by
  unfold parseField
  rw [if_neg (interval_ne_star n)]
  exact stoi?_interval n

/-! ## Theorems -/

/-- C1: for every job whose minute field is wildcard, whose hour field is
wildcard, and whose frequency is DAILY, `shouldRun(job, now, ledger)`
returns true at every (hour, minute) for which the ledger does not map
`job.command` to exactly `(now.hour, now.minute)`, and returns false
whenever the ledger maps `job.command` to exactly
`(now.hour, now.minute)`. -/
theorem wildcard_daily_runs_iff_not_in_ledger (job : CronJob) (t : Tm) (l : Ledger)
    (hm : job.minute = -1) (hh : job.hour = -1) (hf : job.frequency = .daily) :
    shouldRunJob job t l = true ↔ ledgerFind l job.command ≠ some (t.tm_hour, t.tm_min) := by
  unfold shouldRunJob minuteMatch hourMatch alreadyRanThisMinute frequencyCheck
  rw [hm, hh, hf]
  cases hfind : ledgerFind l job.command with
  | none => simp
  | some p =>
    obtain ⟨a, b⟩ := p
    by_cases h1 : a = t.tm_hour <;> by_cases h2 : b = t.tm_min <;>
      simp [h1, h2]

/-- Concrete job for the C1 witness: all-wildcard schedule, hence
wildcard minute and hour and DAILY frequency. -/
def jobC1 : CronJob := mkJob "c1 job" "backup.sh" ⟨"*", "*", "*", "*", "*"⟩ ⟨"", "", "", []⟩

/-- Witness for C1: the all-wildcard DAILY job fires at 12:30 when the
ledger holds a different pair for its command, and is suppressed when
the ledger holds exactly (12, 30). -/
theorem wildcard_daily_runs_iff_not_in_ledger_witness :
    shouldRunJob jobC1 ⟨30, 12, 15, 5, 3⟩ [("backup.sh", (11, 30))] = true ∧
    shouldRunJob jobC1 ⟨30, 12, 15, 5, 3⟩ [("backup.sh", (12, 30))] = false :=
  ⟨(wildcard_daily_runs_iff_not_in_ledger jobC1 ⟨30, 12, 15, 5, 3⟩
      [("backup.sh", (11, 30))] rfl rfl rfl).mpr (by decide),
   by decide⟩

/-- C2: for every currently active job set and every replacement load on
which validation fails (in particular when some replacement job has an
empty command), the reload leaves the active set unchanged: a snapshot
taken after the failed reload equals the snapshot taken before it. -/
theorem failed_reload_preserves_snapshot (st : WatcherState) (outcome : LoadOutcome)
    (h : (validateAndLoadConfig st outcome).2 = false) :
    getJobs (validateAndLoadConfig st outcome).1 = getJobs st := by
  cases outcome with
  | invalidFile => rfl
  | loadFailed => rfl
  | loaded newJobs =>
    unfold validateAndLoadConfig at h ⊢
    by_cases hb : hasEmptyCommand newJobs
    · simp [hb]
    · simp [hb] at h

/-- Active job set for the C2 witness. -/
def stC2 : WatcherState :=
  { currentJobs := [mkJob "old" "old.sh" ⟨"*", "*", "*", "*", "*"⟩ ⟨"", "", "", []⟩] }

/-- Replacement load for the C2 witness: one job with an empty command. -/
def badLoadC2 : LoadOutcome :=
  LoadOutcome.loaded [mkJob "bad" "" ⟨"*", "*", "*", "*", "*"⟩ ⟨"", "", "", []⟩]

/-- Witness for C2: publishing a replacement holding a job with an empty
command leaves the previous snapshot observable. -/
theorem failed_reload_preserves_snapshot_witness :
    getJobs (validateAndLoadConfig stC2 badLoadC2).1 = getJobs stC2 :=
  failed_reload_preserves_snapshot stC2 badLoadC2 (by decide)

/-- C4: for every job whose minute and hour match the current time and
whose command is not in the ledger for the current (hour, minute), the
frequency step of `shouldRun` gives: true for DAILY; weekday equality
with `day_param` for WEEKLY; day-of-month equality with `day_param` for
MONTHLY; day-of-month and calendar-month (`tm_mon + 1`) equality for
YEARLY; Monday..Friday (`1 ≤ wday ≤ 5`) for WEEKDAY; Saturday or Sunday
(`wday = 6 ∨ wday = 0`) for WEEKEND. -/
theorem frequency_step_of_shouldRun (job : CronJob) (t : Tm) (l : Ledger)
    (hm : minuteMatch job t = true) (hh : hourMatch job t = true)
    (hd : alreadyRanThisMinute job t l = false) :
    (job.frequency = .daily → shouldRunJob job t l = true) ∧
    (job.frequency = .weekly → (shouldRunJob job t l = true ↔ t.tm_wday = job.day_param)) ∧
    (job.frequency = .monthly → (shouldRunJob job t l = true ↔ t.tm_mday = job.day_param)) ∧
    (job.frequency = .yearly →
      (shouldRunJob job t l = true ↔ t.tm_mday = job.day_param ∧ t.tm_mon + 1 = job.month_param)) ∧
    (job.frequency = .weekday → (shouldRunJob job t l = true ↔ 1 ≤ t.tm_wday ∧ t.tm_wday ≤ 5)) ∧
    (job.frequency = .weekend → (shouldRunJob job t l = true ↔ t.tm_wday = 6 ∨ t.tm_wday = 0)) := by
  have hrun : shouldRunJob job t l = frequencyCheck job t := by
    unfold shouldRunJob
    rw [hm, hh, hd]
    rfl
  rw [hrun]
  refine ⟨?_, ?_, ?_, ?_, ?_, ?_⟩ <;> intro hf <;> simp [frequencyCheck, hf]
  · tauto

/-- Concrete WEEKLY job for the C4 witness (`day_param = 3`,
Wednesday). -/
def jobC4 : CronJob :=
  { description := "c4", schedule := ⟨"0", "9", "*", "*", "3"⟩,
    command := "weekly.sh", conditions := ⟨"", "", "", []⟩,
    hour := 9, minute := 0, frequency := .weekly, day_param := 3,
    month_param := -1 }

/-- Witness for C4: the frequency-step conclusions at a Wednesday
09:00 tick with an empty ledger. -/
theorem frequency_step_of_shouldRun_witness :
    (jobC4.frequency = .daily → shouldRunJob jobC4 ⟨0, 9, 15, 5, 3⟩ [] = true) ∧
    (jobC4.frequency = .weekly →
      (shouldRunJob jobC4 ⟨0, 9, 15, 5, 3⟩ [] = true ↔ (3 : Int) = jobC4.day_param)) ∧
    (jobC4.frequency = .monthly →
      (shouldRunJob jobC4 ⟨0, 9, 15, 5, 3⟩ [] = true ↔ (15 : Int) = jobC4.day_param)) ∧
    (jobC4.frequency = .yearly →
      (shouldRunJob jobC4 ⟨0, 9, 15, 5, 3⟩ [] = true ↔
        (15 : Int) = jobC4.day_param ∧ (5 : Int) + 1 = jobC4.month_param)) ∧
    (jobC4.frequency = .weekday →
      (shouldRunJob jobC4 ⟨0, 9, 15, 5, 3⟩ [] = true ↔ (1 : Int) ≤ 3 ∧ (3 : Int) ≤ 5)) ∧
    (jobC4.frequency = .weekend →
      (shouldRunJob jobC4 ⟨0, 9, 15, 5, 3⟩ [] = true ↔ (3 : Int) = 6 ∨ (3 : Int) = 0)) :=
  frequency_step_of_shouldRun jobC4 ⟨0, 9, 15, 5, 3⟩ [] (by decide) (by decide) (by decide)

/-- Concrete job for the C3 counterexample: always due, with a CPU gate
`<0` that no reading can satisfy. -/
def jobC3 : CronJob := mkJob "c3 gated" "gated.sh" ⟨"*", "*", "*", "*", "*"⟩ ⟨"<0", "", "", []⟩

/-- C3 counterexample: the claim says a due job whose Condition
Evaluator returns false at the tick is skipped without a ledger update.
On the code, the tick never consults the evaluator: with readings under
which `checkJobConditions` is false for `jobC3`, the due job is
dispatched anyway and its ledger entry is written. -/
theorem tick_dispatches_despite_failing_conditions :
    checkJobConditions ⟨some 50, none, none, fun _ => none⟩ jobC3.conditions = false ∧
    shouldRunJob jobC3 ⟨5, 10, 15, 3, 2⟩ [] = true ∧
    processTick [jobC3] ⟨5, 10, 15, 3, 2⟩ [] = ([("gated.sh", (10, 5))], [jobC3]) := by
  refine ⟨?_, by decide, by decide⟩
  have h0 : digitsToNat ['0'] = 0 := rfl
  have h1 : evaluateThreshold 50 "<0" =
      decide ((50 : Rat) < 1 * ((digitsToNat ['0'] : Nat) : Rat)) := rfl
  have h2 : evaluateThreshold 50 "<0" = false := by
    rw [h1]
    exact decide_eq_false (by rw [h0]; norm_num)
  have h3 : checkJobConditions ⟨some 50, none, none, fun _ => none⟩ jobC3.conditions =
      ((evaluateThreshold 50 "<0" && true && true) && true) := rfl
  rw [h3, h2]
  rfl

/-- C3 amended: the Condition Evaluator is applied at configuration load
time, once per job entry — a job whose conditions fail under the
readings taken at load is excluded from the published Job Set — and at a
scheduler tick no condition evaluation occurs: every due job is
dispatched and its ledger entry overwritten with the firing
(hour, minute). -/
theorem conditions_gate_load_not_dispatch (r : Readings) (entries : List JobEntry) :
    (∀ j ∈ parseJobsFromJson r entries, checkJobConditions r j.conditions = true) ∧
    (∀ (j : CronJob) (t : Tm) (l : Ledger), shouldRunJob j t l = true →
      processTick [j] t l = (ledgerInsert l j.command (t.tm_hour, t.tm_min), [j])) := by
  constructor
  · induction entries with
    | nil => intro j hj; simp [parseJobsFromJson] at hj
    | cons e rest ih =>
      intro j hj
      rcases hdesc : e.description with _ | desc <;> rcases hcmd : e.command with _ | cmd <;>
        simp only [parseJobsFromJson, hdesc, hcmd] at hj
      · exact ih j hj
      · exact ih j hj
      · exact ih j hj
      · by_cases hcond : checkJobConditions r e.conditions
        · rw [if_pos hcond] at hj
          rcases List.mem_cons.mp hj with hj1 | hj2
          · subst hj1
            exact hcond
          · exact ih j hj2
        · rw [if_neg hcond] at hj
          exact ih j hj
  · intro j t l hrun
    simp [processTick, hrun]

/-- Witness for C3 (amended): a one-entry load under error readings, and
the dispatch property instantiated at a concrete due job and tick. -/
theorem conditions_gate_load_not_dispatch_witness :
    (∀ j ∈ parseJobsFromJson ⟨none, none, none, fun _ => none⟩
        [⟨some "w", some "w.sh", ⟨"*", "*", "*", "*", "*"⟩, ⟨"", "", "", []⟩⟩],
      checkJobConditions ⟨none, none, none, fun _ => none⟩ j.conditions = true) ∧
    (∀ (j : CronJob) (t : Tm) (l : Ledger), shouldRunJob j t l = true →
      processTick [j] t l = (ledgerInsert l j.command (t.tm_hour, t.tm_min), [j])) :=
  conditions_gate_load_not_dispatch ⟨none, none, none, fun _ => none⟩
    [⟨some "w", some "w.sh", ⟨"*", "*", "*", "*", "*"⟩, ⟨"", "", "", []⟩⟩]

/-- C5: a job built by the schedule-to-legacy derivation whose derived
frequency is YEARLY — assigned only when day-of-month is wildcard and
month is non-wildcard — has `day_param = -1`, and `shouldRun` is false
for it at every valid current time (day-of-month is at least 1), so
such a job can never fire. -/
theorem derived_yearly_job_never_fires (sched : CronSchedule) (desc cmd : String)
    (conds : JobConditions)
    (hf : (parseScheduleToLegacyFormat sched).frequency = .yearly) :
    (parseScheduleToLegacyFormat sched).day_param = -1 ∧
    sched.day_of_month = "*" ∧ ¬(sched.month = "*") ∧
    ∀ (t : Tm) (l : Ledger), 1 ≤ t.tm_mday →
      shouldRunJob (mkJob desc cmd sched conds) t l = false := by
  cases h1 : parseField sched.minute with
  | none => rw [parseLegacy_fail sched (Or.inl h1)] at hf; simp [legacyDefaults] at hf
  | some m =>
  cases h2 : parseField sched.hour with
  | none => rw [parseLegacy_fail sched (Or.inr (Or.inl h2))] at hf; simp [legacyDefaults] at hf
  | some h =>
  cases h3 : parseField sched.day_of_month with
  | none =>
    rw [parseLegacy_fail sched (Or.inr (Or.inr (Or.inl h3)))] at hf
    simp [legacyDefaults] at hf
  | some d =>
  cases h4 : parseField sched.month with
  | none =>
    rw [parseLegacy_fail sched (Or.inr (Or.inr (Or.inr h4)))] at hf
    simp [legacyDefaults] at hf
  | some mo =>
  have hP := parseLegacy_success sched m h d mo h1 h2 h3 h4
  rw [hP] at hf
  simp only at hf
  obtain ⟨hdw, hdom, hmon⟩ := deriveFrequency_yearly sched hf
  have hd1 : d = -1 := by
    rw [hdom] at h3
    simp [parseField] at h3
    omega
  subst hd1
  refine ⟨by rw [hP], hdom, hmon, ?_⟩
  intro t l hmday
  have hjf : (mkJob desc cmd sched conds).frequency = .yearly := by
    unfold mkJob; rw [hP]; exact hf
  have hjd : (mkJob desc cmd sched conds).day_param = -1 := by
    unfold mkJob; rw [hP]
  unfold shouldRunJob
  split
  · rfl
  split
  · rfl
  simp [frequencyCheck, hjf, hjd]
  intro hcontra
  omega

/-- Witness for C5: the schedule (minute `*`, hour `*`, day-of-month `*`,
month `6`, day-of-week `*`) derives YEARLY with `day_param = -1`, and
the resulting job is not due on June 23rd at 08:10. -/
theorem derived_yearly_job_never_fires_witness :
    (parseScheduleToLegacyFormat ⟨"*", "*", "*", "6", "*"⟩).day_param = -1 ∧
    shouldRunJob (mkJob "annual" "annual.sh" ⟨"*", "*", "*", "6", "*"⟩ ⟨"", "", "", []⟩)
      ⟨10, 8, 23, 5, 2⟩ [] = false :=
  ⟨(derived_yearly_job_never_fires ⟨"*", "*", "*", "6", "*"⟩ "annual" "annual.sh"
      ⟨"", "", "", []⟩ (by decide)).1,
   (derived_yearly_job_never_fires ⟨"*", "*", "*", "6", "*"⟩ "annual" "annual.sh"
      ⟨"", "", "", []⟩ (by decide)).2.2.2 ⟨10, 8, 23, 5, 2⟩ [] (by decide)⟩

/-- C6 counterexample: the claim says an unparseable numeric time field
is normalized to the safe default 0.  On the code, a job whose minute
field is `"abc"` gets minute `-1` (the wildcard), not 0. -/
theorem unparseable_minute_not_defaulted_to_zero :
    (parseScheduleToLegacyFormat ⟨"abc", "30", "*", "*", "*"⟩).minute = -1 ∧
    ¬((parseScheduleToLegacyFormat ⟨"abc", "30", "*", "*", "*"⟩).minute = 0) := by
  decide

/-- C6 amended: a job entry with an unparseable numeric time field has
all of its legacy numeric fields normalized to the wildcard `-1` (with
frequency DAILY) rather than being rejected, an out-of-range but
parseable value such as minute 75 is kept as parsed, and the rest of
the job and of the job set continue to load — a single malformed field
never discards the whole Job Set. -/
theorem unparseable_field_wildcards_job_and_load_continues (r : Readings)
    (desc cmd : String) (sched : CronSchedule) (conds : JobConditions)
    (rest : List JobEntry)
    (hbad : parseField sched.minute = none ∨ parseField sched.hour = none ∨
        parseField sched.day_of_month = none ∨ parseField sched.month = none)
    (hcond : checkJobConditions r conds = true) :
    parseJobsFromJson r (⟨some desc, some cmd, sched, conds⟩ :: rest) =
      mkJob desc cmd sched conds :: parseJobsFromJson r rest ∧
    parseScheduleToLegacyFormat sched = legacyDefaults ∧
    (parseScheduleToLegacyFormat ⟨"75", "*", "*", "*", "*"⟩).minute = 75 := by
  refine ⟨?_, parseLegacy_fail sched hbad, by decide⟩
  simp only [parseJobsFromJson]
  rw [if_pos hcond]

/-- Witness for C6 (amended): a two-entry load whose first entry has the
unparseable minute `"abc"`; both jobs load, the first with every legacy
field defaulted. -/
theorem unparseable_field_wildcards_job_and_load_continues_witness :
    parseJobsFromJson ⟨none, none, none, fun _ => none⟩
        [⟨some "bad", some "bad.sh", ⟨"abc", "30", "*", "*", "*"⟩, ⟨"", "", "", []⟩⟩,
         ⟨some "ok", some "ok.sh", ⟨"5", "*", "*", "*", "*"⟩, ⟨"", "", "", []⟩⟩] =
      mkJob "bad" "bad.sh" ⟨"abc", "30", "*", "*", "*"⟩ ⟨"", "", "", []⟩ ::
        parseJobsFromJson ⟨none, none, none, fun _ => none⟩
          [⟨some "ok", some "ok.sh", ⟨"5", "*", "*", "*", "*"⟩, ⟨"", "", "", []⟩⟩] ∧
    parseScheduleToLegacyFormat ⟨"abc", "30", "*", "*", "*"⟩ = legacyDefaults ∧
    (parseScheduleToLegacyFormat ⟨"75", "*", "*", "*", "*"⟩).minute = 75 :=
  unparseable_field_wildcards_job_and_load_continues
    ⟨none, none, none, fun _ => none⟩ "bad" "bad.sh" ⟨"abc", "30", "*", "*", "*"⟩
    ⟨"", "", "", []⟩
    [⟨some "ok", some "ok.sh", ⟨"5", "*", "*", "*", "*"⟩, ⟨"", "", "", []⟩⟩]
    (Or.inl (by decide)) (by decide)

/-- C7: every executed job's command is wrapped in the fixed default
300-second timeout; a raw status of `124 * 256` (the `timeout` utility's
expiry status, as returned by `system`) is classified as Timeout, which
is distinct from every Failure code; and any other non-zero raw status
is classified as a Failure — so a command that sleeps past the timeout
yields Timeout, not Failure. -/
theorem timeout_outcome_distinct_from_failure (sys : String → Int) (cwd : String)
    (job : CronJob)
    (hsleep : sys (timedCommand 300 (resolveCommand cwd job.command)) = 124 * 256) :
    executeJob sys cwd job = Outcome.timeout ∧
    (executeWithTimeout sys cwd job.command 300).1 =
      ["timeout 300 " ++ resolveCommand cwd job.command] ∧
    (∀ c : Int, ¬(Outcome.timeout = Outcome.failure c)) ∧
    (∀ res : Int, ¬(res = 0) → ¬(res = 124 * 256) →
      classifyResult res = Outcome.failure (res / 256)) := by
  have hewt : executeWithTimeout sys cwd job.command 300 =
      ([timedCommand 300 (resolveCommand cwd job.command)], 124 * 256) := by
    simp only [executeWithTimeout, hsleep]
    norm_num
  refine ⟨?_, ?_, ?_, ?_⟩
  · unfold executeJob
    rw [hewt]
    rfl
  · rw [hewt]
    rfl
  · intro c h
    cases h
  · intro res h0 h124
    have h124n : ¬res = 31744 := by omega
    simp [classifyResult, h0, h124n]

/-- Collaborator for the C7 witness: `timeout 300 sleep 400` expires
with raw status `124 * 256`. -/
def sysC7 : String → Int :=
  fun s => if s = "timeout 300 sleep 400" then 124 * 256 else 0

/-- Job for the C7 witness: a command that sleeps past the timeout. -/
def jobC7 : CronJob := mkJob "c7 sleeper" "sleep 400" ⟨"*", "*", "*", "*", "*"⟩ ⟨"", "", "", []⟩

/-- Witness for C7: the sleeping command's outcome is Timeout and is not
the Failure classification of exit code 1. -/
theorem timeout_outcome_distinct_from_failure_witness :
    executeJob sysC7 "/opt" jobC7 = Outcome.timeout ∧
    ¬(Outcome.timeout = Outcome.failure 1) :=
  ⟨(timeout_outcome_distinct_from_failure sysC7 "/opt" jobC7 (by decide)).1,
   (timeout_outcome_distinct_from_failure sysC7 "/opt" jobC7 (by decide)).2.2.1 1⟩

/-- C8 counterexample: the claim says the derived frequency is a pure
function of which schedule fields are non-wildcard, with a non-wildcard
day-of-week forcing WEEKDAY, WEEKEND or WEEKLY regardless of the other
fields.  On the code, day-of-week `"3"` with the unparseable
day-of-month `"x"` derives DAILY (the `stoi` failure path), not
WEEKLY/WEEKDAY/WEEKEND. -/
theorem frequency_not_pure_in_wildcards :
    (parseScheduleToLegacyFormat ⟨"*", "*", "x", "*", "3"⟩).frequency = CronFrequency.daily ∧
    ¬(("3" : String) = "*") ∧
    ¬(CronFrequency.daily = CronFrequency.weekday) ∧
    ¬(CronFrequency.daily = CronFrequency.weekend) ∧
    ¬(CronFrequency.daily = CronFrequency.weekly) := by
  decide

/-- C8 amended: provided every numeric schedule field (minute, hour,
day-of-month, month) converts — wildcard or parseable integer — the
derived frequency follows the claimed precedence: non-wildcard
day-of-week gives WEEKDAY (`"1-5"`), WEEKEND (`"0,6"` or `"6,0"`) or
WEEKLY, otherwise non-wildcard day-of-month gives MONTHLY, otherwise
non-wildcard month gives YEARLY, otherwise DAILY; if any numeric field
fails to convert, the frequency is instead DAILY. -/
theorem frequency_precedence_when_fields_parse (sched : CronSchedule) :
    ((∃ m, parseField sched.minute = some m) ∧ (∃ h, parseField sched.hour = some h) ∧
     (∃ d, parseField sched.day_of_month = some d) ∧
     (∃ mo, parseField sched.month = some mo) →
      (parseScheduleToLegacyFormat sched).frequency =
        (if ¬(sched.day_of_week = "*") then
          (if sched.day_of_week = "1-5" then .weekday
           else if sched.day_of_week = "0,6" ∨ sched.day_of_week = "6,0" then .weekend
           else .weekly)
         else if ¬(sched.day_of_month = "*") then .monthly
         else if ¬(sched.month = "*") then .yearly
         else .daily)) ∧
    ((parseField sched.minute = none ∨ parseField sched.hour = none ∨
      parseField sched.day_of_month = none ∨ parseField sched.month = none) →
      (parseScheduleToLegacyFormat sched).frequency = .daily) := by
  constructor
  · rintro ⟨⟨m, h1⟩, ⟨h, h2⟩, ⟨d, h3⟩, ⟨mo, h4⟩⟩
    rw [parseLegacy_success sched m h d mo h1 h2 h3 h4]
    simp only
    unfold deriveFrequency
    split_ifs <;> simp_all
  · intro hbad
    rw [parseLegacy_fail sched hbad]
    rfl

/-- Witness for C8 (amended): day-of-week `"1-5"` with every numeric
field convertible derives WEEKDAY. -/
theorem frequency_precedence_when_fields_parse_witness :
    (parseScheduleToLegacyFormat ⟨"0", "9", "*", "*", "1-5"⟩).frequency =
      CronFrequency.weekday := by
  have h := (frequency_precedence_when_fields_parse ⟨"0", "9", "*", "*", "1-5"⟩).1
    ⟨⟨0, by decide⟩, ⟨9, by decide⟩, ⟨-1, by decide⟩, ⟨-1, by decide⟩⟩
  rw [h]
  decide

/-- C9 counterexample: the claim says a job with interval minute `*/N`
is evaluated with its minute as wildcard while all other fields are
evaluated unchanged.  On the code, the job with schedule
(minute `*/5`, hour `9`) has its hour reset to the wildcard `-1` as
well, so at 10:07 it runs although the same job with minute `*` and
hour `9` intact does not. -/
theorem interval_minute_not_wildcard_equivalent :
    shouldRunJob (mkJob "d" "c9.sh" ⟨"*/5", "9", "*", "*", "*"⟩ ⟨"", "", "", []⟩)
      ⟨7, 10, 15, 3, 2⟩ [] = true ∧
    shouldRunJob (mkJob "d" "c9.sh" ⟨"*", "9", "*", "*", "*"⟩ ⟨"", "", "", []⟩)
      ⟨7, 10, 15, 3, 2⟩ [] = false ∧
    (mkJob "d" "c9.sh" ⟨"*/5", "9", "*", "*", "*"⟩ ⟨"", "", "", []⟩).hour = -1 ∧
    (mkJob "d" "c9.sh" ⟨"*", "9", "*", "*", "*"⟩ ⟨"", "", "", []⟩).hour = 9 := by
  decide

/-- C9 amended: a job whose minute specifier has the interval form `*/N`
is accepted at parse time and its minute is evaluated as wildcard, but
the failed integer conversion resets all of its legacy fields — minute,
hour, day and month parameters become `-1` and the frequency DAILY —
rather than leaving the other fields evaluated unchanged. -/
theorem interval_minute_resets_all_legacy_fields (r : Readings) (desc cmd n : String)
    (sched : CronSchedule) (conds : JobConditions) (rest : List JobEntry)
    (hmin : sched.minute = "*/" ++ n)
    (hcond : checkJobConditions r conds = true) :
    parseJobsFromJson r (⟨some desc, some cmd, sched, conds⟩ :: rest) =
      mkJob desc cmd sched conds :: parseJobsFromJson r rest ∧
    parseScheduleToLegacyFormat sched = legacyDefaults ∧
    ∀ t : Tm, minuteMatch (mkJob desc cmd sched conds) t = true := by
  have hpf : parseField sched.minute = none := by
    rw [hmin]
    exact parseField_interval n
  refine ⟨?_, parseLegacy_fail sched (Or.inl hpf), ?_⟩
  · simp only [parseJobsFromJson]
    rw [if_pos hcond]
  · intro t
    have hm1 : (mkJob desc cmd sched conds).minute = -1 := by
      unfold mkJob
      rw [parseLegacy_fail sched (Or.inl hpf)]
      rfl
    simp [minuteMatch, hm1]

/-- Witness for C9 (amended): the interval entry (minute `*/5`, hour
`9`) loads, all its legacy fields default, and its minute matches any
time. -/
theorem interval_minute_resets_all_legacy_fields_witness :
    parseJobsFromJson ⟨none, none, none, fun _ => none⟩
        [⟨some "iv", some "iv.sh", ⟨"*/5", "9", "*", "*", "*"⟩, ⟨"", "", "", []⟩⟩] =
      mkJob "iv" "iv.sh" ⟨"*/5", "9", "*", "*", "*"⟩ ⟨"", "", "", []⟩ ::
        parseJobsFromJson ⟨none, none, none, fun _ => none⟩ [] ∧
    parseScheduleToLegacyFormat ⟨"*/5", "9", "*", "*", "*"⟩ = legacyDefaults ∧
    ∀ t : Tm,
      minuteMatch (mkJob "iv" "iv.sh" ⟨"*/5", "9", "*", "*", "*"⟩ ⟨"", "", "", []⟩) t = true :=
  interval_minute_resets_all_legacy_fields ⟨none, none, none, fun _ => none⟩
    "iv" "iv.sh" "5" ⟨"*/5", "9", "*", "*", "*"⟩ ⟨"", "", "", []⟩ [] rfl (by decide)

/-- C10: whenever the timeout-wrapped invocation of a command returns
raw status `127 * 256` (both the missing `timeout` utility and a
missing command produce it), `executeWithTimeout` invokes the very same
resolved command a second time with no timeout wrapper, so one dispatch
runs the command twice and the second run is not bounded by any
timeout. -/
theorem status_127_reruns_without_timeout (sys : String → Int) (cwd command : String)
    (h127 : sys (timedCommand 300 (resolveCommand cwd command)) = 127 * 256) :
    executeWithTimeout sys cwd command 300 =
      ([timedCommand 300 (resolveCommand cwd command), resolveCommand cwd command],
        sys (resolveCommand cwd command)) ∧
    (executeWithTimeout sys cwd command 300).1.length = 2 := by
  have h : executeWithTimeout sys cwd command 300 =
      ([timedCommand 300 (resolveCommand cwd command), resolveCommand cwd command],
        sys (resolveCommand cwd command)) := by
    simp only [executeWithTimeout, h127]
    norm_num
  refine ⟨h, ?_⟩
  rw [h]
  rfl

/-- Collaborator for the C10 witness: the wrapped invocation of
`missing.sh` reports status `127 * 256` (command not found); the bare
invocation reports exit code 127 as well. -/
def sysC10 : String → Int :=
  fun s => if s = "timeout 300 missing.sh" then 127 * 256
    else if s = "missing.sh" then 127 * 256 else 0

/-- Witness for C10: the command `missing.sh` is invoked twice, the
second time without the timeout wrapper. -/
theorem status_127_reruns_without_timeout_witness :
    executeWithTimeout sysC10 "/opt" "missing.sh" 300 =
      (["timeout 300 missing.sh", "missing.sh"], 127 * 256) ∧
    (executeWithTimeout sysC10 "/opt" "missing.sh" 300).1.length = 2 :=
  status_127_reruns_without_timeout sysC10 "/opt" "missing.sh" (by decide)

end NanoCron
